import Mathlib

/-!
# Sound Bath Sanctuary — verification of the audio engine

Shallow embedding of `src/audio-engine.js` (class `AudioEngine`): the
envelope automation curves each instrument schedules on its Web Audio
nodes, the per-family style parameter tables, and the engine state
transitions (voice registration, polyphony enforcement, ambient bed,
stop-all, analyser reads).

Times in an automation curve are offsets from the trigger time `now`,
as exact rationals; amplitudes and frequencies are rationals as well.
-/

namespace SoundBath

/-- The three Web Audio automation calls used by the engine:
`setValueAtTime`, `linearRampToValueAtTime`, `exponentialRampToValueAtTime`. -/
inductive RampKind where
  | instantSet
  | linearRamp
  | exponentialRamp
deriving DecidableEq

/-- One scheduled automation breakpoint: time offset from `now`, target value,
and which automation call produced it. -/
structure Breakpoint where
  t : ℚ
  v : ℚ
  kind : RampKind
deriving DecidableEq

/-- An automation curve on one AudioParam, in scheduling order. -/
abbrev Curve := List Breakpoint

/-- A curve together with a flag saying whether it automates a gain
(`GainNode.gain`) as opposed to a filter/oscillator frequency. -/
structure ScheduledCurve where
  isGain : Bool
  points : Curve
deriving DecidableEq

/-- The breakpoint times of a curve, in scheduling order. -/
def curveTimes (c : Curve) : List ℚ := c.map Breakpoint.t

/-- Breakpoint times are monotonically non-decreasing. -/
def curveMonotone (c : Curve) : Prop :=
  (curveTimes c).Chain' (fun a b => a ≤ b)

/-- Boolean check that a list of times is non-decreasing. -/
def timesNondecreasing : List ℚ → Bool
  | [] => true
  | [_] => true
  | a :: b :: rest => (decide (a ≤ b)) && timesNondecreasing (b :: rest)

instance (c : Curve) : Decidable (curveMonotone c) :=
  decidable_of_iff (timesNondecreasing (curveTimes c) = true) (by
    unfold curveMonotone
    generalize curveTimes c = l
    induction l with
    | nil => simp [timesNondecreasing]
    | cons a t ih =>
      cases t with
      | nil => simp [timesNondecreasing]
      | cons b r =>
        simp only [timesNondecreasing, Bool.and_eq_true, decide_eq_true_eq,
          List.chain'_cons] at ih ⊢
        rw [ih])

/-- Every exponential ramp in the curve targets a strictly positive value. -/
def expTargetsPositive (c : Curve) : Prop :=
  ∀ b ∈ c, b.kind = RampKind.exponentialRamp → 0 < b.v

instance (c : Curve) : Decidable (expTargetsPositive c) :=
  inferInstanceAs (Decidable (∀ b ∈ c, b.kind = RampKind.exponentialRamp → 0 < b.v))

/-- Time of the last scheduled breakpoint of a curve (0 for an empty curve). -/
def finalTime (c : Curve) : ℚ := (curveTimes c).getLastD 0

/-! ## Crystal singing bowl (`playCrystalBowl`, lines 218–312) -/

/-- Style parameters chosen by the `if`/`else if`/`else` chain at
lines 230–257; the `else` branch (gentle) is the fallback for any
unrecognized style string.  `sustain` and `release` are already scaled
by the duration, as in the source. -/
structure CrystalParams where
  harmonicRatios : List ℚ
  harmonicAmplitudes : List ℚ
  attack : ℚ
  sustain : ℚ
  release : ℚ
  peakAmp : ℚ
  filterFreq : ℚ
deriving DecidableEq

def crystalParams (style : String) (duration : ℚ) : CrystalParams :=
  if style = "strike" then
    { harmonicRatios := [1, 2, 3, 4, 5.2, 6.5]
      harmonicAmplitudes := [1, 0.5, 0.35, 0.2, 0.1, 0.05]
      attack := 0.003
      sustain := duration * 0.15
      release := duration * 0.85
      peakAmp := 0.18
      filterFreq := 8000 }
  else if style = "rim" then
    { harmonicRatios := [1, 2, 2.98, 4.01, 5]
      harmonicAmplitudes := [1, 0.7, 0.5, 0.3, 0.15]
      attack := 2.5
      sustain := duration * 0.5
      release := duration * 0.3
      peakAmp := 0.12
      filterFreq := 5000 }
  else
    { harmonicRatios := [1, 2, 3]
      harmonicAmplitudes := [1, 0.15, 0.05]
      attack := 0.8
      sustain := duration * 0.3
      release := duration * 0.5
      peakAmp := 0.08
      filterFreq := 2500 }

/-- The gain envelope scheduled per harmonic (lines 284–288):
set 0 at `now`, linear ramp to the harmonic amplitude at `now+attack`,
hold until `now+attack+sustain`, exponential ramp to 0.001 at
`now+attack+sustain+release`. -/
def crystalHarmonicCurve (p : CrystalParams) (a : ℚ) : Curve :=
  let amplitude := a * p.peakAmp
  [⟨0, 0, RampKind.instantSet⟩,
   ⟨p.attack, amplitude, RampKind.linearRamp⟩,
   ⟨p.attack + p.sustain, amplitude, RampKind.instantSet⟩,
   ⟨p.attack + p.sustain + p.release, 0.001, RampKind.exponentialRamp⟩]

/-- All curves `playCrystalBowl` schedules: one gain envelope per entry of
`harmonicAmplitudes` (the rim LFO's gain is a constant, not automated). -/
def crystalCurves (style : String) (duration : ℚ) : List ScheduledCurve :=
  let p := crystalParams style duration
  p.harmonicAmplitudes.map (fun a => ⟨true, crystalHarmonicCurve p a⟩)

/-! ## Tibetan bowl (`playTibetanBowl`, lines 315–444) -/

/-- Style parameters, lines 327–354; the `else` branch (water) is the
fallback for unrecognized styles. -/
structure TibetanParams where
  partialRatios : List ℚ
  amplitudes : List ℚ
  attack : ℚ
  peakAmp : ℚ
  filterFreq : ℚ
  filterQ : ℚ
  detuneAmount : ℚ
deriving DecidableEq

def tibetanParams (style : String) : TibetanParams :=
  if style = "mallet" then
    { partialRatios := [1, 2.71, 5.19, 8.5, 12.3, 15.8]
      amplitudes := [1, 0.6, 0.35, 0.2, 0.1, 0.05]
      attack := 0.002, peakAmp := 0.14
      filterFreq := 6000, filterQ := 0.5, detuneAmount := 8 }
  else if style = "singing" then
    { partialRatios := [1, 2.71, 5.19, 8.5]
      amplitudes := [1, 0.8, 0.4, 0.15]
      attack := 3, peakAmp := 0.1
      filterFreq := 4000, filterQ := 1, detuneAmount := 15 }
  else
    { partialRatios := [1, 2.71, 5.19]
      amplitudes := [1, 0.4, 0.15]
      attack := 0.5, peakAmp := 0.08
      filterFreq := 2000, filterQ := 2, detuneAmount := 5 }

/-- The gain envelope scheduled per partial (lines 381–432).  The envelope
branch tests `singing`, then `water`, falling back to the mallet shape;
the `water` and mallet shapes schedule the same breakpoints (the water
modulators have constant gains). -/
def tibetanPartialCurve (style : String) (p : TibetanParams) (duration a : ℚ) :
    Curve :=
  let amp := a * p.peakAmp
  if style = "singing" then
    [⟨0, 0, RampKind.instantSet⟩,
     ⟨p.attack * 0.5, amp * 0.3, RampKind.linearRamp⟩,
     ⟨p.attack, amp, RampKind.linearRamp⟩,
     ⟨p.attack + duration * 0.3, amp, RampKind.instantSet⟩,
     ⟨duration, 0.001, RampKind.exponentialRamp⟩]
  else if style = "water" then
    [⟨0, 0, RampKind.instantSet⟩,
     ⟨p.attack, amp, RampKind.linearRamp⟩,
     ⟨duration, 0.001, RampKind.exponentialRamp⟩]
  else
    [⟨0, 0, RampKind.instantSet⟩,
     ⟨p.attack, amp, RampKind.linearRamp⟩,
     ⟨duration, 0.001, RampKind.exponentialRamp⟩]

/-- All curves `playTibetanBowl` schedules: one gain envelope per partial. -/
def tibetanCurves (style : String) (duration : ℚ) : List ScheduledCurve :=
  let p := tibetanParams style
  p.amplitudes.map (fun a => ⟨true, tibetanPartialCurve style p duration a⟩)

/-! ## Gong (`playGong`, lines 447–628) -/

/-- Style parameters, lines 459–486; the `else` branch (crash) is the
fallback for unrecognized styles. -/
structure GongParams where
  numPartials : Nat
  attack : ℚ
  peak : ℚ
  filterFreq : ℚ
  filterQ : ℚ
  partialSpread : ℚ
  detuneRange : ℚ
deriving DecidableEq

def gongParams (style : String) : GongParams :=
  if style = "soft" then
    { numPartials := 12, attack := 0.8, peak := 0.07
      filterFreq := 1500, filterQ := 0.5, partialSpread := 0.5, detuneRange := 10 }
  else if style = "crescendo" then
    { numPartials := 18, attack := 5, peak := 0.12
      filterFreq := 4000, filterQ := 0.7, partialSpread := 0.6, detuneRange := 15 }
  else
    { numPartials := 30, attack := 0.001, peak := 0.25
      filterFreq := 12000, filterQ := 0.5, partialSpread := 0.9, detuneRange := 50 }

/-- A draw of `Math.random()`: a rational in `[0, 1)`. -/
abbrev RandUnit := {q : ℚ // 0 ≤ q ∧ q < 1}

/-- The frequency of gong partial `i` (line 552):
`baseFreq * (1 + i*partialSpread + Math.random()*0.3)`, with the random
draws passed in explicitly as `jitter`. -/
def gongPartialFreq (p : GongParams) (baseFreq : ℚ) (jitter : Nat → RandUnit) (i : Nat) : ℚ :=
  baseFreq * (1 + (i : ℚ) * p.partialSpread + (jitter i).1 * 0.3)

/-- The gain envelope scheduled for gong partial `i` (lines 567–616),
with amplitude `peak / (1 + i*0.2)`. -/
def gongPartialCurve (style : String) (p : GongParams) (duration : ℚ) (i : Nat) :
    Curve :=
  let amp := p.peak / (1 + (i : ℚ) * 0.2)
  if style = "soft" then
    [⟨0, 0, RampKind.instantSet⟩,
     ⟨p.attack, amp, RampKind.linearRamp⟩,
     ⟨p.attack + duration * 0.1, amp, RampKind.instantSet⟩,
     ⟨duration, 0.001, RampKind.exponentialRamp⟩]
  else if style = "crescendo" then
    [⟨0, 0, RampKind.instantSet⟩,
     ⟨p.attack * 0.3, amp * 0.2, RampKind.linearRamp⟩,
     ⟨p.attack * 0.6, amp * 0.5, RampKind.linearRamp⟩,
     ⟨p.attack, amp, RampKind.linearRamp⟩,
     ⟨p.attack + 1, amp, RampKind.instantSet⟩,
     ⟨duration, 0.001, RampKind.exponentialRamp⟩]
  else
    let hitAmp := amp * 1.5
    [⟨0, 0, RampKind.instantSet⟩,
     ⟨p.attack, hitAmp, RampKind.linearRamp⟩,
     ⟨0.08, hitAmp * 0.4, RampKind.exponentialRamp⟩,
     ⟨0.3, hitAmp * 0.15, RampKind.exponentialRamp⟩,
     ⟨1.5, hitAmp * 0.05, RampKind.exponentialRamp⟩,
     ⟨duration, 0.001, RampKind.exponentialRamp⟩]

/-- The gain curve of the crash-style chaos modulator for partial `i`
(lines 606–611): it targets fractions of the partial's (randomized)
frequency. -/
def gongChaosCurve (p : GongParams) (baseFreq : ℚ) (jitter : Nat → RandUnit) (i : Nat) :
    Curve :=
  let freq := gongPartialFreq p baseFreq jitter i
  [⟨0, freq * 0.03, RampKind.instantSet⟩,
   ⟨0.5, freq * 0.005, RampKind.exponentialRamp⟩,
   ⟨2, 0.001, RampKind.exponentialRamp⟩]

/-- All curves `playGong` schedules: the crescendo filter sweep
(lines 497–502), the crash filter sweep (lines 507–510) and noise-burst
gain (lines 536–537), one gain envelope per partial, and for crash one
chaos-modulator gain per partial.  Shimmer gains (crescendo) are
constants, not automated. -/
def gongCurves (style : String) (baseFreq duration : ℚ) (jitter : Nat → RandUnit) :
    List ScheduledCurve :=
  let p := gongParams style
  (if style = "crescendo" then
    [⟨false, [⟨0, 800, RampKind.instantSet⟩,
              ⟨p.attack, p.filterFreq, RampKind.linearRamp⟩,
              ⟨p.attack + 2, p.filterFreq, RampKind.instantSet⟩,
              ⟨duration, 600, RampKind.exponentialRamp⟩]⟩]
   else if style = "soft" then []
   else
    [⟨false, [⟨0, p.filterFreq, RampKind.instantSet⟩,
              ⟨0.3, 3000, RampKind.exponentialRamp⟩,
              ⟨2, 1200, RampKind.exponentialRamp⟩,
              ⟨duration, 400, RampKind.exponentialRamp⟩]⟩,
     ⟨true, [⟨0, 0.35, RampKind.instantSet⟩,
             ⟨0.4, 0.001, RampKind.exponentialRamp⟩]⟩])
  ++ (List.range p.numPartials).map
      (fun i => ⟨true, gongPartialCurve style p duration i⟩)
  ++ (if style = "soft" ∨ style = "crescendo" then []
      else (List.range p.numPartials).map
        (fun i => ⟨true, gongChaosCurve p baseFreq jitter i⟩))

/-! ## Didgeridoo (`playDidgeridoo`, lines 631–811) -/

/-- Style parameters, lines 640–664; the `else` branch (melodic) is the
fallback for unrecognized styles. -/
structure DidgeParams where
  formant1Freq : ℚ
  formant2Freq : ℚ
  formant1Q : ℚ
  formant2Q : ℚ
  attack : ℚ
  oscType : String
deriving DecidableEq

def didgeParams (style : String) : DidgeParams :=
  if style = "sustained" then
    { formant1Freq := 200, formant2Freq := 800, formant1Q := 10, formant2Q := 8
      attack := 0.5, oscType := "sawtooth" }
  else if style = "rhythmic" then
    { formant1Freq := 180, formant2Freq := 700, formant1Q := 12, formant2Q := 10
      attack := 0.1, oscType := "sawtooth" }
  else
    { formant1Freq := 250, formant2Freq := 1000, formant1Q := 8, formant2Q := 6
      attack := 0.3, oscType := "sawtooth" }

/-- All curves `playDidgeridoo` schedules: the master gain envelope per
style (lines 719–773) and, for melodic, the two animated formant
frequency curves (lines 776–786).  The LFO gains are constants. -/
def didgeCurves (style : String) (duration : ℚ) : List ScheduledCurve :=
  let p := didgeParams style
  if style = "sustained" then
    [⟨true, [⟨0, 0, RampKind.instantSet⟩,
             ⟨p.attack, 0.2, RampKind.linearRamp⟩,
             ⟨duration - 0.8, 0.2, RampKind.instantSet⟩,
             ⟨duration, 0, RampKind.linearRamp⟩]⟩]
  else if style = "rhythmic" then
    [⟨true, [⟨0, 0, RampKind.instantSet⟩,
             ⟨p.attack, 0.15, RampKind.linearRamp⟩,
             ⟨duration - 0.3, 0.15, RampKind.instantSet⟩,
             ⟨duration, 0, RampKind.linearRamp⟩]⟩]
  else
    [⟨true, [⟨0, 0, RampKind.instantSet⟩,
             ⟨p.attack, 0.18, RampKind.linearRamp⟩,
             ⟨duration - 0.5, 0.18, RampKind.instantSet⟩,
             ⟨duration, 0, RampKind.linearRamp⟩]⟩,
     ⟨false, [⟨0, 200, RampKind.instantSet⟩,
              ⟨duration * 0.25, 350, RampKind.linearRamp⟩,
              ⟨duration * 0.5, 180, RampKind.linearRamp⟩,
              ⟨duration * 0.75, 280, RampKind.linearRamp⟩,
              ⟨duration, 200, RampKind.linearRamp⟩]⟩,
     ⟨false, [⟨0, 800, RampKind.instantSet⟩,
              ⟨duration * 0.25, 1200, RampKind.linearRamp⟩,
              ⟨duration * 0.5, 700, RampKind.linearRamp⟩,
              ⟨duration * 0.75, 900, RampKind.linearRamp⟩,
              ⟨duration, 800, RampKind.linearRamp⟩]⟩]

/-! ## Pan flute (`playPanFlute`, lines 814–950) -/

/-- Style parameters, lines 822–850; the `else` branch (melodic) is the
fallback.  The rhythmic branch clamps the duration to at most 1.5 s
(line 833); `duration` here is the effective (possibly clamped) value. -/
structure FluteParams where
  duration : ℚ
  attack : ℚ
  release : ℚ
  toneLevel : ℚ
  noiseLevel : ℚ
  vibratoRate : ℚ
  vibratoDepth : ℚ
  noiseFilterQ : ℚ
deriving DecidableEq

def fluteParams (style : String) (duration : ℚ) : FluteParams :=
  if style = "sustained" then
    { duration := duration, attack := 0.3, release := 0.5
      toneLevel := 0.15, noiseLevel := 0.015
      vibratoRate := 4.5, vibratoDepth := 0.008, noiseFilterQ := 1.5 }
  else if style = "rhythmic" then
    { duration := min duration 1.5, attack := 0.02, release := 0.3
      toneLevel := 0.18, noiseLevel := 0.04
      vibratoRate := 0, vibratoDepth := 0, noiseFilterQ := 3 }
  else
    { duration := duration, attack := 0.15, release := 0.4
      toneLevel := 0.16, noiseLevel := 0.02
      vibratoRate := 5.5, vibratoDepth := 0.015, noiseFilterQ := 2 }

/-- All curves `playPanFlute` schedules: the master gain envelope per
style (lines 906–937), the rhythmic breath-burst noise gain
(lines 921–922), and the melodic pitch-bend curve on the fundamental
(lines 933–936). -/
def fluteCurves (style : String) (frequency duration : ℚ) : List ScheduledCurve :=
  let p := fluteParams style duration
  let d := p.duration
  if style = "sustained" then
    [⟨true, [⟨0, 0, RampKind.instantSet⟩,
             ⟨p.attack, 1, RampKind.linearRamp⟩,
             ⟨d - p.release, 1, RampKind.instantSet⟩,
             ⟨d, 0, RampKind.linearRamp⟩]⟩]
  else if style = "rhythmic" then
    [⟨true, [⟨0, 0, RampKind.instantSet⟩,
             ⟨p.attack, 1.2, RampKind.linearRamp⟩,
             ⟨0.1, 0.6, RampKind.exponentialRamp⟩,
             ⟨d, 0.001, RampKind.exponentialRamp⟩]⟩,
     ⟨true, [⟨0, p.noiseLevel * 3, RampKind.instantSet⟩,
             ⟨0.08, p.noiseLevel, RampKind.exponentialRamp⟩]⟩]
  else
    [⟨true, [⟨0, 0, RampKind.instantSet⟩,
             ⟨p.attack, 0.7, RampKind.linearRamp⟩,
             ⟨d * 0.4, 1, RampKind.linearRamp⟩,
             ⟨d * 0.7, 0.8, RampKind.linearRamp⟩,
             ⟨d, 0, RampKind.linearRamp⟩]⟩,
     ⟨false, [⟨0, frequency * 0.995, RampKind.instantSet⟩,
              ⟨p.attack, frequency, RampKind.linearRamp⟩,
              ⟨d * 0.5, frequency * 1.003, RampKind.linearRamp⟩,
              ⟨d, frequency, RampKind.linearRamp⟩]⟩]

/-! ## Handpan (`playHandpan`, lines 953–1062) -/

/-- Style parameters, lines 965–992; the `else` branch (ghost) is the
fallback. -/
structure HandpanParams where
  partialRatios : List ℚ
  amplitudes : List ℚ
  attack : ℚ
  peakAmp : ℚ
  filterFreq : ℚ
  decayRate : ℚ
  detuneAmount : ℚ
deriving DecidableEq

def handpanParams (style : String) : HandpanParams :=
  if style = "finger" then
    { partialRatios := [1, 2, 3, 4.7, 6.2, 8]
      amplitudes := [1, 0.6, 0.35, 0.18, 0.08, 0.03]
      attack := 0.003, peakAmp := 0.12
      filterFreq := 6000, decayRate := 1, detuneAmount := 3 }
  else if style = "palm" then
    { partialRatios := [1, 2, 3, 4.7]
      amplitudes := [1, 0.8, 0.3, 0.1]
      attack := 0.008, peakAmp := 0.18
      filterFreq := 2000, decayRate := 1.3, detuneAmount := 5 }
  else
    { partialRatios := [1, 2, 3]
      amplitudes := [1, 0.4, 0.15]
      attack := 0.001, peakAmp := 0.04
      filterFreq := 4000, decayRate := 2.5, detuneAmount := 2 }

/-- The gain envelope scheduled per handpan partial (lines 1021–1049),
with `adjustedDuration = duration / decayRate` (line 1019). -/
def handpanPartialCurve (style : String) (p : HandpanParams) (duration a : ℚ) :
    Curve :=
  let amp := a * p.peakAmp
  let adjustedDuration := duration / p.decayRate
  if style = "finger" then
    [⟨0, 0, RampKind.instantSet⟩,
     ⟨p.attack, amp, RampKind.linearRamp⟩,
     ⟨p.attack + 0.05, amp, RampKind.instantSet⟩,
     ⟨adjustedDuration * 0.3, amp * 0.5, RampKind.exponentialRamp⟩,
     ⟨duration, 0.001, RampKind.exponentialRamp⟩]
  else if style = "palm" then
    [⟨0, 0, RampKind.instantSet⟩,
     ⟨p.attack, amp * 1.2, RampKind.linearRamp⟩,
     ⟨0.03, amp * 0.6, RampKind.exponentialRamp⟩,
     ⟨0.15, amp * 0.3, RampKind.exponentialRamp⟩,
     ⟨adjustedDuration, 0.001, RampKind.exponentialRamp⟩]
  else
    [⟨0, 0, RampKind.instantSet⟩,
     ⟨p.attack, amp, RampKind.linearRamp⟩,
     ⟨0.05, amp * 0.3, RampKind.exponentialRamp⟩,
     ⟨adjustedDuration, 0.001, RampKind.exponentialRamp⟩]

/-- All curves `playHandpan` schedules: one gain envelope per partial and,
for palm, the filter-closing sweep scheduled once at index 0
(lines 1038–1042). -/
def handpanCurves (style : String) (duration : ℚ) : List ScheduledCurve :=
  let p := handpanParams style
  p.amplitudes.map (fun a => ⟨true, handpanPartialCurve style p duration a⟩)
  ++ (if style = "palm" then
      [⟨false, [⟨0, p.filterFreq * 1.5, RampKind.instantSet⟩,
                ⟨0.1, p.filterFreq * 0.5, RampKind.exponentialRamp⟩,
                ⟨duration / p.decayRate, p.filterFreq * 0.3,
                  RampKind.exponentialRamp⟩]⟩]
     else [])

/-! ## Engine state (`class AudioEngine`, constructor lines 7–19) -/

/-- The value stored per id in `activeOscillators` (e.g. line 308):
the registered oscillator nodes, each carried here as its
already-stopped flag (freshly started oscillators are `false`). -/
structure VoiceData where
  oscillators : List Bool
deriving DecidableEq

/-- The mutable fields of `AudioEngine` the claims touch.
`activeOscillators` is a JS `Map`, i.e. an insertion-ordered
association list with unique keys; `pendingAmbientStop` carries the
`setTimeout` teardown scheduled by `stopAmbient` (line 193). -/
structure Engine where
  audioContext : Option Unit
  analyserFftSize : Option Nat
  isInitialized : Bool
  activeOscillators : List (String × VoiceData)
  idCounter : Nat
  isAmbientPlaying : Bool
  ambientSource : Option Unit
  ambientGain : Option Unit
  pendingAmbientStop : Bool
deriving DecidableEq

/-- Constructor state (lines 7–19): everything null/false/empty. -/
def initEngine : Engine :=
  { audioContext := none, analyserFftSize := none, isInitialized := false
    activeOscillators := [], idCounter := 0
    isAmbientPlaying := false, ambientSource := none, ambientGain := none
    pendingAmbientStop := false }

/-- Field `maxPolyphony` (line 15). -/
def maxPolyphony : Nat := 32

/-- The engine's async init method (lines 21–54): a no-op returning true
when already initialized; otherwise it creates the audio context (which
can fail — `ctxOk` is whether `new AudioContext()` succeeds), the
analyser with `fftSize = 256` (line 41), and sets `isInitialized`.  On
failure the catch block returns false. -/
def initializeEngine (eng : Engine) (ctxOk : Bool) : Bool × Engine :=
  if eng.isInitialized then (true, eng)
  else if ctxOk then
    (true, { eng with audioContext := some ()
                      analyserFftSize := some 256
                      isInitialized := true })
  else (false, eng)

/-- Method `getAnalyserData()` (lines 93–98): null when the analyser is null;
otherwise a fresh `Uint8Array(frequencyBinCount)` filled by
`getByteFrequencyData` — `frequencyBinCount = fftSize / 2`, and each
entry is a byte.  `spectrum` stands for the analyser's current
magnitude data. -/
def getAnalyserData (eng : Engine) (spectrum : Nat → Nat) : Option (List Nat) :=
  match eng.analyserFftSize with
  | none => none
  | some fftSize => some ((List.range (fftSize / 2)).map (fun i => spectrum i % 256))

/-- Method `enforcePolyphony()` (lines 110–124): while the map holds at least
`maxPolyphony` entries, force-stop and delete the first-inserted entry. -/
def enforcePolyphony (m : Nat) : List (String × VoiceData) → List (String × VoiceData)
  | [] => []
  | x :: xs => if m ≤ xs.length + 1 then enforcePolyphony m xs else x :: xs

/-- The shared tail of every play function: `enforcePolyphony()`, then
`generateId` (line 100–102, which pre-increments `idCounter`), then
`activeOscillators.set(id, voice)` — a `Map.set` with a fresh key, which
appends in insertion order. -/
def registerVoice (eng : Engine) (ty : String) (v : VoiceData) : String × Engine :=
  let act := enforcePolyphony maxPolyphony eng.activeOscillators
  let id := ty ++ "_" ++ toString (eng.idCounter + 1)
  (id, { eng with idCounter := eng.idCounter + 1
                  activeOscillators := act ++ [(id, v)] })

/-- Method `playCrystalBowl` (lines 218–312): registers one oscillator per
harmonic ratio (lines 268–308). -/
def playCrystalBowl (eng : Engine) (_frequency : ℚ) (style : String) (duration : ℚ) :
    String × Engine :=
  registerVoice eng "crystal"
    ⟨List.replicate (crystalParams style duration).harmonicRatios.length false⟩

/-- Method `playTibetanBowl` (lines 315–444): registers one oscillator per
partial (lines 364–440). -/
def playTibetanBowl (eng : Engine) (_frequency : ℚ) (style : String) (_duration : ℚ) :
    String × Engine :=
  registerVoice eng "tibetan"
    ⟨List.replicate (tibetanParams style).partialRatios.length false⟩

/-- Method `playGong` (lines 447–628): registers `numPartials` oscillators
(lines 547–624). -/
def playGong (eng : Engine) (_baseFreq : ℚ) (style : String) (_duration : ℚ) :
    String × Engine :=
  registerVoice eng "gong" ⟨List.replicate (gongParams style).numPartials false⟩

/-- The oscillators `playDidgeridoo` registers in the live set
(line 807): `[droneOsc]` only. -/
def didgeRegisteredOscs : List String := ["droneOsc"]

/-- The pitched generators `playDidgeridoo` creates and schedules
`start(now)`/`stop(now + duration)` on (lines 667–676 and 800–805):
the sawtooth drone and the sub-octave sine. -/
def didgePitchedOscs : List String := ["droneOsc", "subOsc"]

/-- Method `playDidgeridoo` (lines 631–811). -/
def playDidgeridoo (eng : Engine) (_frequency : ℚ) (_style : String) (_duration : ℚ) :
    String × Engine :=
  registerVoice eng "didge" ⟨List.replicate didgeRegisteredOscs.length false⟩

/-- The oscillators `playPanFlute` registers in the live set (line 946):
`[osc]` only. -/
def fluteRegisteredOscs : List String := ["osc"]

/-- The pitched generators `playPanFlute` creates and schedules
`start(now)`/`stop(now + duration)` on (lines 853–860 and 939–942):
the fundamental and the second harmonic. -/
def flutePitchedOscs : List String := ["osc", "osc2"]

/-- Method `playPanFlute` (lines 814–950). -/
def playPanFlute (eng : Engine) (_frequency : ℚ) (_style : String) (_duration : ℚ) :
    String × Engine :=
  registerVoice eng "panflute" ⟨List.replicate fluteRegisteredOscs.length false⟩

/-- Method `playHandpan` (lines 953–1062): registers one oscillator per partial. -/
def playHandpan (eng : Engine) (_frequency : ℚ) (style : String) (_duration : ℚ) :
    String × Engine :=
  registerVoice eng "handpan"
    ⟨List.replicate (handpanParams style).partialRatios.length false⟩

/-- One trigger call on the engine, for reasoning about call sequences. -/
inductive PlayCall where
  | crystal (frequency : ℚ) (style : String) (duration : ℚ)
  | tibetan (frequency : ℚ) (style : String) (duration : ℚ)
  | gong (baseFreq : ℚ) (style : String) (duration : ℚ)
  | didgeridoo (frequency : ℚ) (style : String) (duration : ℚ)
  | panFlute (frequency : ℚ) (style : String) (duration : ℚ)
  | handpan (frequency : ℚ) (style : String) (duration : ℚ)
deriving DecidableEq

def playCall : PlayCall → Engine → Engine
  | PlayCall.crystal f s d, eng => (playCrystalBowl eng f s d).2
  | PlayCall.tibetan f s d, eng => (playTibetanBowl eng f s d).2
  | PlayCall.gong f s d, eng => (playGong eng f s d).2
  | PlayCall.didgeridoo f s d, eng => (playDidgeridoo eng f s d).2
  | PlayCall.panFlute f s d, eng => (playPanFlute eng f s d).2
  | PlayCall.handpan f s d, eng => (playHandpan eng f s d).2

/-- A sequence of trigger calls, executed left to right. -/
def runPlays (calls : List PlayCall) (eng : Engine) : Engine :=
  calls.foldl (fun e c => playCall c e) eng

/-! ## Voice removal, stop, stopAll -/

/-- Map removal `activeOscillators.delete(id)`: removes the entry with that key
(there is at most one — keys are generated fresh).  Used both by the
natural-completion cleanup (`scheduleCleanup`, lines 104–108) and by
forced eviction (`enforcePolyphony`, line 121). -/
def mapDelete (id : String) : List (String × VoiceData) → List (String × VoiceData)
  | [] => []
  | (k, v) :: rest => if k = id then rest else (k, v) :: mapDelete id rest

/-- Call `osc.stop()` on an oscillator node: throws `InvalidStateError` when
the node was already stopped, otherwise marks it stopped. -/
def oscStop (stopped : Bool) : Except String Bool :=
  if stopped then Except.error "InvalidStateError" else Except.ok true

/-- Loop `oscillators.forEach(osc => osc.stop())`: stops each node in turn;
the first throw aborts the loop, leaving the rest untouched.  Returns
the node states after the loop and the escaping error, if any. -/
def forEachStop : List Bool → List Bool × Option String
  | [] => ([], none)
  | s :: rest =>
    match oscStop s with
    | Except.error e => (s :: rest, some e)
    | Except.ok s' =>
      let r := forEachStop rest
      (s' :: r.1, r.2)

/-- Block `try ... catch` around one voice's oscillator stops
(lines 1066–1070): the error, if any, is swallowed. -/
def stopVoiceCaught (v : VoiceData) : VoiceData :=
  ⟨(forEachStop v.oscillators).1⟩

/-- Method `stopAll()` (lines 1064–1073): force-stop every live voice's
oscillators (each under its own try/catch), then clear the map.  The
`Except` records whether any error escapes to the caller. -/
def stopAllE (eng : Engine) : Except String Engine :=
  let eng1 := { eng with
    activeOscillators :=
      eng.activeOscillators.map
        (fun (p : String × VoiceData) => (p.1, stopVoiceCaught p.2)) }
  Except.ok { eng1 with activeOscillators := [] }

/-! ## Ambient bed -/

/-- Method `startAmbient()` (lines 127–183): a no-op when already playing or
when there is no audio context; otherwise creates the looping noise
source and its gain, starts it, schedules the fade-in and sets
`isAmbientPlaying`. -/
def startAmbient (eng : Engine) : Engine :=
  if eng.isAmbientPlaying ∨ eng.audioContext = none then eng
  else { eng with ambientSource := some (), ambientGain := some ()
                  isAmbientPlaying := true }

/-- Method `stopAmbient()` (lines 185–205): a no-op when not playing or the
gain is gone; otherwise schedules the fade-out and a `setTimeout`
teardown — the flags and nodes are untouched until the timeout fires. -/
def stopAmbient (eng : Engine) : Engine :=
  if eng.isAmbientPlaying = false ∨ eng.ambientGain = none then eng
  else { eng with pendingAmbientStop := true }

/-- The `setTimeout` callback of `stopAmbient` (lines 193–204): stops
and releases the source and gain and clears `isAmbientPlaying`. -/
def ambientStopTimeout (eng : Engine) : Engine :=
  if eng.pendingAmbientStop then
    { eng with ambientSource := none, ambientGain := none
               isAmbientPlaying := false, pendingAmbientStop := false }
  else eng

/-- Method `toggleAmbient()` (lines 207–215). -/
def toggleAmbient (eng : Engine) : Bool × Engine :=
  if eng.isAmbientPlaying then (false, stopAmbient eng)
  else (true, startAmbient eng)

/-- The ambient bed is playing or fading in (not fading out): the flag
is set and no teardown is pending. -/
def ambientActive (eng : Engine) : Prop :=
  eng.isAmbientPlaying = true ∧ eng.pendingAmbientStop = false

instance (eng : Engine) : Decidable (ambientActive eng) :=
  inferInstanceAs (Decidable (eng.isAmbientPlaying = true ∧ eng.pendingAmbientStop = false))

/-! ## Shared helpers for the statements -/

/-- Every scheduled curve of the list satisfies `P`. -/
def allCurves (l : List ScheduledCurve) (P : Curve → Prop) : Prop :=
  ∀ sc ∈ l, P sc.points

instance (l : List ScheduledCurve) (P : Curve → Prop) [DecidablePred P] :
    Decidable (allCurves l P) :=
  inferInstanceAs (Decidable (∀ sc ∈ l, P sc.points))

/-- Every scheduled curve of the list that automates a gain satisfies `P`. -/
def allGainCurves (l : List ScheduledCurve) (P : Curve → Prop) : Prop :=
  ∀ sc ∈ l, sc.isGain = true → P sc.points

instance (l : List ScheduledCurve) (P : Curve → Prop) [DecidablePred P] :
    Decidable (allGainCurves l P) :=
  inferInstanceAs (Decidable (∀ sc ∈ l, sc.isGain = true → P sc.points))

/-- Oscillator count recorded in the most recently registered voice. -/
def lastVoiceOscCount (eng : Engine) : Nat :=
  ((eng.activeOscillators.getLastD ("", ⟨[]⟩)).2).oscillators.length

/-- A freshly initialized engine (constructor followed by a successful
init call). -/
def engine0 : Engine := (initializeEngine initEngine true).2

/-- The example scenario of the spec: 40 crystal-bowl strikes in rapid
succession against the cap of 32. -/
def scenario40 : Engine :=
  runPlays (List.replicate 40 (PlayCall.crystal 256 "strike" 8)) engine0

/-- A fixed all-zero randomness source, for concrete witnesses. -/
def rand0 : Nat → RandUnit := fun _ => ⟨0, by norm_num⟩

/-- A fixed analyser spectrum, for concrete witnesses. -/
def constSpectrum : Nat → Nat := fun _ => 300

/-! ## Helper lemmas -/

theorem enforcePolyphony_eq_drop (m : Nat) (l : List (String × VoiceData)) :
    enforcePolyphony m l = l.drop (l.length + 1 - m) := by
  induction l with
  | nil => simp [enforcePolyphony]
  | cons x xs ih =>
    rw [enforcePolyphony]
    by_cases h : m ≤ xs.length + 1
    · rw [if_pos h, ih]
      have hlen : (x :: xs).length + 1 - m = (xs.length + 1 - m) + 1 := by
        simp only [List.length_cons]; omega
      rw [hlen, List.drop_succ_cons]
    · rw [if_neg h]
      have hlen : (x :: xs).length + 1 - m = 0 := by
        simp only [List.length_cons]; omega
      rw [hlen, List.drop_zero]

theorem registerVoice_length (eng : Engine) (ty : String) (v : VoiceData) :
    ((registerVoice eng ty v).2).activeOscillators.length =
      (enforcePolyphony maxPolyphony eng.activeOscillators).length + 1 := by
  simp [registerVoice]

theorem playCall_length_le (c : PlayCall) (eng : Engine) :
    (playCall c eng).activeOscillators.length ≤ maxPolyphony := by
  have h : ∀ ty v, ((registerVoice eng ty v).2).activeOscillators.length ≤ maxPolyphony := by
    intro ty v
    rw [registerVoice_length, enforcePolyphony_eq_drop, List.length_drop]
    have h32 : maxPolyphony = 32 := rfl
    omega
  cases c <;>
    simp only [playCall, playCrystalBowl, playTibetanBowl, playGong,
      playDidgeridoo, playPanFlute, playHandpan] <;>
    exact h _ _

theorem lastVoiceOscCount_registerVoice (eng : Engine) (ty : String) (v : VoiceData) :
    lastVoiceOscCount (registerVoice eng ty v).2 = v.oscillators.length := by
  simp [lastVoiceOscCount, registerVoice, List.getLastD_concat]

theorem crystalParams_fallback (style : String) (d : ℚ)
    (h1 : style ≠ "strike") (h2 : style ≠ "rim") :
    crystalParams style d = crystalParams "gentle" d := by
  simp [crystalParams, h1, h2]

theorem tibetanParams_fallback (style : String)
    (h1 : style ≠ "mallet") (h2 : style ≠ "singing") :
    tibetanParams style = tibetanParams "water" := by
  simp [tibetanParams, h1, h2]

theorem gongParams_fallback (style : String)
    (h1 : style ≠ "soft") (h2 : style ≠ "crescendo") :
    gongParams style = gongParams "crash" := by
  simp [gongParams, h1, h2]

theorem fluteParams_fallback (style : String) (d : ℚ)
    (h1 : style ≠ "sustained") (h2 : style ≠ "rhythmic") :
    fluteParams style d = fluteParams "melodic" d := by
  simp [fluteParams, h1, h2]

theorem handpanParams_fallback (style : String)
    (h1 : style ≠ "finger") (h2 : style ≠ "palm") :
    handpanParams style = handpanParams "ghost" := by
  simp [handpanParams, h1, h2]

theorem crystalCurves_fallback (style : String) (d : ℚ)
    (h1 : style ≠ "strike") (h2 : style ≠ "rim") :
    crystalCurves style d = crystalCurves "gentle" d := by
  simp [crystalCurves, crystalParams, h1, h2]

theorem tibetanCurves_fallback (style : String) (d : ℚ)
    (h1 : style ≠ "mallet") (h2 : style ≠ "singing") :
    tibetanCurves style d = tibetanCurves "water" d := by
  simp [tibetanCurves, tibetanParams, tibetanPartialCurve, h1, h2]

theorem gongCurves_fallback (style : String) (b d : ℚ) (j : Nat → RandUnit)
    (h1 : style ≠ "soft") (h2 : style ≠ "crescendo") :
    gongCurves style b d j = gongCurves "crash" b d j := by
  simp [gongCurves, gongParams, gongPartialCurve, gongChaosCurve, h1, h2]

theorem didgeCurves_fallback (style : String) (d : ℚ)
    (h1 : style ≠ "sustained") (h2 : style ≠ "rhythmic") :
    didgeCurves style d = didgeCurves "melodic" d := by
  simp [didgeCurves, didgeParams, h1, h2]

theorem fluteCurves_fallback (style : String) (f d : ℚ)
    (h1 : style ≠ "sustained") (h2 : style ≠ "rhythmic") :
    fluteCurves style f d = fluteCurves "melodic" f d := by
  simp [fluteCurves, fluteParams, h1, h2]

theorem handpanCurves_fallback (style : String) (d : ℚ)
    (h1 : style ≠ "finger") (h2 : style ≠ "palm") :
    handpanCurves style d = handpanCurves "ghost" d := by
  simp [handpanCurves, handpanParams, handpanPartialCurve, h1, h2]

/-! ## Claims -/

/-- C1: after any sequence of play calls the live set holds at most
`maxPolyphony` (32) voices; `enforcePolyphony` always keeps a suffix of
the insertion-ordered live set, i.e. it evicts exactly the
oldest-registered voices; and 40 rapid triggers from an empty
initialized engine leave exactly 32 live voices, the 8 oldest
(`crystal_1`–`crystal_8`) gone. -/
theorem polyphony_cap_and_oldest_eviction :
    (∀ (calls : List PlayCall) (c : PlayCall) (eng : Engine),
        (runPlays (calls ++ [c]) eng).activeOscillators.length ≤ maxPolyphony) ∧
    (∀ l : List (String × VoiceData),
        enforcePolyphony maxPolyphony l = l.drop (l.length + 1 - maxPolyphony)) ∧
    scenario40.activeOscillators.length = 32 ∧
    scenario40.activeOscillators.map Prod.fst =
      (List.range' 9 32).map (fun n => "crystal_" ++ toString n) := by
  refine ⟨?_, fun l => enforcePolyphony_eq_drop _ l, ?_, ?_⟩
  · intro calls c eng
    rw [runPlays, List.foldl_append]
    exact playCall_length_le c _
  · decide
  · decide

/-- C2 counterexample: the didgeridoo voice records 1 oscillator
(`[droneOsc]`, line 807) while the synthesis model creates 2 pitched
generators (drone + sub-octave sine), so the registered generator count
differs from the model's oscillator count. -/
theorem didge_registers_one_of_two_generators :
    lastVoiceOscCount (playDidgeridoo engine0 65 "sustained" 8).2 = 1 ∧
    didgePitchedOscs.length = 2 ∧
    lastVoiceOscCount (playDidgeridoo engine0 65 "sustained" 8).2 ≠
      didgePitchedOscs.length := by
  decide

/-- C2 (amended): for crystal, tibetan, gong and handpan the registered
Voice's generator count equals the synthesis model's partial/oscillator
count for the style; but `playDidgeridoo` and `playPanFlute` register
only one oscillator each although each creates two pitched generators,
so force-stopping those voices misses the sub-octave sine / the
second-harmonic oscillator. -/
theorem voice_generator_counts :
    (∀ (eng : Engine) (f : ℚ) (style : String) (d : ℚ),
        lastVoiceOscCount (playCrystalBowl eng f style d).2
          = (crystalParams style d).harmonicRatios.length) ∧
    (∀ (eng : Engine) (f : ℚ) (style : String) (d : ℚ),
        lastVoiceOscCount (playTibetanBowl eng f style d).2
          = (tibetanParams style).partialRatios.length) ∧
    (∀ (eng : Engine) (f : ℚ) (style : String) (d : ℚ),
        lastVoiceOscCount (playGong eng f style d).2
          = (gongParams style).numPartials) ∧
    (∀ (eng : Engine) (f : ℚ) (style : String) (d : ℚ),
        lastVoiceOscCount (playHandpan eng f style d).2
          = (handpanParams style).partialRatios.length) ∧
    (∀ (eng : Engine) (f : ℚ) (style : String) (d : ℚ),
        lastVoiceOscCount (playDidgeridoo eng f style d).2 = 1) ∧
    (∀ (eng : Engine) (f : ℚ) (style : String) (d : ℚ),
        lastVoiceOscCount (playPanFlute eng f style d).2 = 1) ∧
    didgePitchedOscs.length = 2 ∧ flutePitchedOscs.length = 2 := by
  refine ⟨?_, ?_, ?_, ?_, ?_, ?_, rfl, rfl⟩ <;>
    intro eng f style d <;>
    simp [playCrystalBowl, playTibetanBowl, playGong, playHandpan,
      playDidgeridoo, playPanFlute, lastVoiceOscCount_registerVoice,
      didgeRegisteredOscs, fluteRegisteredOscs]

/-- C3 counterexample: for the crystal bowl, style "strike", default
duration 8, every scheduled gain envelope's final breakpoint is at
8.003 s after the trigger — later than trigger + duration. -/
theorem crystal_final_breakpoint_exceeds_duration :
    finalTime (crystalHarmonicCurve (crystalParams "strike" 8) 1) = 8003 / 1000 ∧
    ¬ allGainCurves (crystalCurves "strike" 8) (fun c => finalTime c ≤ 8) := by
  constructor
  · norm_num [crystalHarmonicCurve, crystalParams, finalTime, curveTimes,
      List.getLastD_cons]
  · intro h
    have hmem : (⟨true, crystalHarmonicCurve (crystalParams "strike" 8) 1⟩ :
        ScheduledCurve) ∈ crystalCurves "strike" 8 := by
      simp [crystalCurves, crystalParams, List.mem_map]
    have hle := h _ hmem rfl
    norm_num [crystalHarmonicCurve, crystalParams, finalTime, curveTimes,
      List.getLastD_cons] at hle

/-- C3 (amended): for every positive duration the crystal bowl's gain
envelopes end exactly at attack + sustain + release — at most
duration + attack, but past the duration itself for "strike" (and for
"rim"/"gentle" with small durations); for the five other families, at
their default durations, every scheduled gain envelope's final
breakpoint lands at or before trigger + duration. -/
theorem envelope_final_breakpoints :
    (∀ (style : String) (d : ℚ), 0 < d →
        allCurves (crystalCurves style d) (fun c =>
          finalTime c = (crystalParams style d).attack + (crystalParams style d).sustain
              + (crystalParams style d).release ∧
          finalTime c ≤ d + (crystalParams style d).attack)) ∧
    (∀ style : String, allGainCurves (tibetanCurves style 10) (fun c => finalTime c ≤ 10)) ∧
    (∀ (style : String) (b : ℚ) (j : Nat → RandUnit),
        allGainCurves (gongCurves style b 15 j) (fun c => finalTime c ≤ 15)) ∧
    (∀ style : String, allGainCurves (didgeCurves style 8) (fun c => finalTime c ≤ 8)) ∧
    (∀ (style : String) (f : ℚ),
        allGainCurves (fluteCurves style f 4) (fun c => finalTime c ≤ 4)) ∧
    (∀ style : String, allGainCurves (handpanCurves style 5) (fun c => finalTime c ≤ 5)) := by
  refine ⟨?_, ?_, ?_, ?_, ?_, ?_⟩
  · intro style d hd
    by_cases h1 : style = "strike"
    · subst h1
      simp [allCurves, crystalCurves, crystalParams, crystalHarmonicCurve,
            finalTime, curveTimes, List.getLastD_cons]
      norm_num
      linarith
    by_cases h2 : style = "rim"
    · subst h2
      simp [allCurves, crystalCurves, crystalParams, crystalHarmonicCurve,
            finalTime, curveTimes, List.getLastD_cons]
      norm_num
      linarith
    rw [crystalCurves_fallback style d h1 h2, crystalParams_fallback style d h1 h2]
    simp [allCurves, crystalCurves, crystalParams, crystalHarmonicCurve,
          finalTime, curveTimes, List.getLastD_cons]
    norm_num
    linarith
  · intro style
    by_cases h1 : style = "mallet"
    · subst h1
      simp [allGainCurves, tibetanCurves, tibetanParams, tibetanPartialCurve,
        finalTime, curveTimes, List.getLastD_cons]
      all_goals norm_num
    by_cases h2 : style = "singing"
    · subst h2
      simp [allGainCurves, tibetanCurves, tibetanParams, tibetanPartialCurve,
        finalTime, curveTimes, List.getLastD_cons]
      all_goals norm_num
    rw [tibetanCurves_fallback style 10 h1 h2]
    simp [allGainCurves, tibetanCurves, tibetanParams, tibetanPartialCurve,
      finalTime, curveTimes, List.getLastD_cons]
    all_goals norm_num
  · intro style b j
    by_cases h1 : style = "soft"
    · subst h1
      simp [allGainCurves, gongCurves, gongParams, gongPartialCurve,
            finalTime, curveTimes, List.getLastD_cons, List.forall_mem_map]
    by_cases h2 : style = "crescendo"
    · subst h2
      simp [allGainCurves, gongCurves, gongParams, gongPartialCurve,
            finalTime, curveTimes, List.getLastD_cons, List.forall_mem_map]
    rw [gongCurves_fallback style b 15 j h1 h2]
    simp [allGainCurves, gongCurves, gongParams, gongPartialCurve, gongChaosCurve,
          finalTime, curveTimes, List.getLastD_cons, List.forall_mem_map]
    refine ⟨by norm_num, ?_⟩
    rintro sc (⟨i, hi, rfl⟩ | ⟨i, hi, rfl⟩) <;> simp [List.getLastD_cons] <;> norm_num
  · intro style
    by_cases h1 : style = "sustained"
    · subst h1
      simp [allGainCurves, didgeCurves, didgeParams, finalTime, curveTimes,
        List.getLastD_cons]
      all_goals norm_num
    by_cases h2 : style = "rhythmic"
    · subst h2
      simp [allGainCurves, didgeCurves, didgeParams, finalTime, curveTimes,
        List.getLastD_cons]
      all_goals norm_num
    rw [didgeCurves_fallback style 8 h1 h2]
    simp [allGainCurves, didgeCurves, didgeParams, finalTime, curveTimes,
      List.getLastD_cons]
    all_goals norm_num
  · intro style f
    by_cases h1 : style = "sustained"
    · subst h1
      simp [allGainCurves, fluteCurves, fluteParams, finalTime, curveTimes,
            List.getLastD_cons]
    by_cases h2 : style = "rhythmic"
    · subst h2
      simp [allGainCurves, fluteCurves, fluteParams, finalTime, curveTimes,
            List.getLastD_cons]
      norm_num
    rw [fluteCurves_fallback style f 4 h1 h2]
    simp [allGainCurves, fluteCurves, fluteParams, finalTime, curveTimes,
          List.getLastD_cons]
  · intro style
    by_cases h1 : style = "finger"
    · subst h1
      simp [allGainCurves, handpanCurves, handpanParams, handpanPartialCurve,
        finalTime, curveTimes, List.getLastD_cons]
      all_goals norm_num
    by_cases h2 : style = "palm"
    · subst h2
      simp [allGainCurves, handpanCurves, handpanParams, handpanPartialCurve,
        finalTime, curveTimes, List.getLastD_cons]
      all_goals norm_num
    rw [handpanCurves_fallback style 5 h1 h2]
    simp [allGainCurves, handpanCurves, handpanParams, handpanPartialCurve,
      finalTime, curveTimes, List.getLastD_cons]
    all_goals norm_num

/-- C3 witness: the crystal-bowl clause of `envelope_final_breakpoints`
at duration 8 and style "gentle". -/
theorem envelope_final_breakpoints_witness :
    (0 : ℚ) < 8 ∧
    allCurves (crystalCurves "gentle" 8) (fun c =>
      finalTime c = (crystalParams "gentle" 8).attack + (crystalParams "gentle" 8).sustain
          + (crystalParams "gentle" 8).release ∧
      finalTime c ≤ 8 + (crystalParams "gentle" 8).attack) :=
  ⟨by norm_num, envelope_final_breakpoints.1 "gentle" 8 (by norm_num)⟩

/-- C7 counterexample: the Tibetan bowl "singing" envelope is not
monotone for every positive duration — at duration 2 the hold
breakpoint (attack + 0.3·duration = 3.6) comes after the final ramp
(at 2). -/
theorem tibetan_singing_envelope_nonmonotone :
    ¬ allGainCurves (tibetanCurves "singing" 2) (fun c => curveMonotone c) := by
  intro h
  have hmem : (⟨true, tibetanPartialCurve "singing" (tibetanParams "singing") 2 1⟩ :
      ScheduledCurve) ∈ tibetanCurves "singing" 2 := by
    simp [tibetanCurves, tibetanParams]
  have hmono := h _ hmem rfl
  simp [tibetanPartialCurve, tibetanParams, curveMonotone, curveTimes,
    List.chain'_cons] at hmono
  norm_num at hmono

set_option maxHeartbeats 1600000 in
/-- C7 (amended): every exponential ramp scheduled by any family at any
style, frequency and duration targets a strictly positive value (for
the gong, given a positive base frequency); and breakpoint times are
monotonically non-decreasing for every style at each family's default
duration — though not for every positive duration. -/
theorem envelope_ramp_soundness :
    (∀ (style : String) (d : ℚ), allCurves (crystalCurves style d) expTargetsPositive) ∧
    (∀ (style : String) (d : ℚ), allCurves (tibetanCurves style d) expTargetsPositive) ∧
    (∀ (style : String) (b d : ℚ) (j : Nat → RandUnit), 0 < b →
        allCurves (gongCurves style b d j) expTargetsPositive) ∧
    (∀ (style : String) (d : ℚ), allCurves (didgeCurves style d) expTargetsPositive) ∧
    (∀ (style : String) (f d : ℚ), allCurves (fluteCurves style f d) expTargetsPositive) ∧
    (∀ (style : String) (d : ℚ), allCurves (handpanCurves style d) expTargetsPositive) ∧
    (∀ style : String, allCurves (crystalCurves style 8) curveMonotone) ∧
    (∀ style : String, allCurves (tibetanCurves style 10) curveMonotone) ∧
    (∀ (style : String) (b : ℚ) (j : Nat → RandUnit),
        allCurves (gongCurves style b 15 j) curveMonotone) ∧
    (∀ style : String, allCurves (didgeCurves style 8) curveMonotone) ∧
    (∀ (style : String) (f : ℚ), allCurves (fluteCurves style f 4) curveMonotone) ∧
    (∀ style : String, allCurves (handpanCurves style 5) curveMonotone) := by
  refine ⟨?_, ?_, ?_, ?_, ?_, ?_, ?_, ?_, ?_, ?_, ?_, ?_⟩
  · intro style d
    by_cases h1 : style = "strike"
    · subst h1
      simp [allCurves, crystalCurves, crystalParams, expTargetsPositive,
        crystalHarmonicCurve]
      all_goals norm_num
    by_cases h2 : style = "rim"
    · subst h2
      simp [allCurves, crystalCurves, crystalParams, expTargetsPositive,
        crystalHarmonicCurve]
      all_goals norm_num
    rw [crystalCurves_fallback style d h1 h2]
    simp [allCurves, crystalCurves, crystalParams, expTargetsPositive,
      crystalHarmonicCurve]
    all_goals norm_num
  · intro style d
    by_cases h1 : style = "mallet"
    · subst h1
      simp [allCurves, tibetanCurves, tibetanParams, expTargetsPositive,
        tibetanPartialCurve]
      all_goals norm_num
    by_cases h2 : style = "singing"
    · subst h2
      simp [allCurves, tibetanCurves, tibetanParams, expTargetsPositive,
        tibetanPartialCurve]
      all_goals norm_num
    rw [tibetanCurves_fallback style d h1 h2]
    simp [allCurves, tibetanCurves, tibetanParams, expTargetsPositive,
      tibetanPartialCurve]
    all_goals norm_num
  · intro style b d j hb
    by_cases h1 : style = "soft"
    · subst h1
      simp [allCurves, gongCurves, gongParams, gongPartialCurve,
        expTargetsPositive, List.forall_mem_map]
      all_goals norm_num
    by_cases h2 : style = "crescendo"
    · subst h2
      simp [allCurves, gongCurves, gongParams, gongPartialCurve,
        expTargetsPositive, List.forall_mem_map]
      all_goals norm_num
    rw [gongCurves_fallback style b d j h1 h2]
    have hfreq : ∀ i : Nat, 0 < gongPartialFreq (gongParams "crash") b j i := by
      intro i
      unfold gongPartialFreq
      have h0 : (0:ℚ) ≤ (i:ℚ) := Nat.cast_nonneg i
      have hj0 : (0:ℚ) ≤ (j i).1 := (j i).2.1
      have hpos : (0:ℚ) < 1 + (i:ℚ) * (gongParams "crash").partialSpread
          + (j i).1 * 0.3 := by
        simp [gongParams]
        nlinarith
      exact mul_pos hb hpos
    simp [allCurves, gongCurves, gongParams, gongPartialCurve, gongChaosCurve,
      expTargetsPositive, List.forall_mem_map] at hfreq ⊢
    refine ⟨by norm_num, ?_⟩
    rintro sc (⟨i, hi, rfl⟩ | ⟨i, hi, rfl⟩) <;> simp
    · refine ⟨?_, ?_, ?_, ?_⟩ <;> positivity
    · refine ⟨?_, ?_⟩
      · have := hfreq i
        positivity
      · norm_num
  · intro style d
    by_cases h1 : style = "sustained"
    · subst h1
      simp [allCurves, didgeCurves, didgeParams, expTargetsPositive]
      all_goals norm_num
    by_cases h2 : style = "rhythmic"
    · subst h2
      simp [allCurves, didgeCurves, didgeParams, expTargetsPositive]
      all_goals norm_num
    rw [didgeCurves_fallback style d h1 h2]
    simp [allCurves, didgeCurves, didgeParams, expTargetsPositive]
    all_goals norm_num
  · intro style f d
    by_cases h1 : style = "sustained"
    · subst h1
      simp [allCurves, fluteCurves, fluteParams, expTargetsPositive]
      all_goals norm_num
    by_cases h2 : style = "rhythmic"
    · subst h2
      simp [allCurves, fluteCurves, fluteParams, expTargetsPositive]
      all_goals norm_num
    rw [fluteCurves_fallback style f d h1 h2]
    simp [allCurves, fluteCurves, fluteParams, expTargetsPositive]
    all_goals norm_num
  · intro style d
    by_cases h1 : style = "finger"
    · subst h1
      simp [allCurves, handpanCurves, handpanParams, handpanPartialCurve,
        expTargetsPositive]
      all_goals norm_num
    by_cases h2 : style = "palm"
    · subst h2
      simp [allCurves, handpanCurves, handpanParams, handpanPartialCurve,
        expTargetsPositive]
      all_goals norm_num
    rw [handpanCurves_fallback style d h1 h2]
    simp [allCurves, handpanCurves, handpanParams, handpanPartialCurve,
      expTargetsPositive]
    all_goals norm_num
  · intro style
    by_cases h1 : style = "strike"
    · subst h1
      simp [allCurves, crystalCurves, crystalParams, crystalHarmonicCurve,
        curveMonotone, curveTimes, List.Chain']
      all_goals norm_num
    by_cases h2 : style = "rim"
    · subst h2
      simp [allCurves, crystalCurves, crystalParams, crystalHarmonicCurve,
        curveMonotone, curveTimes, List.Chain']
      all_goals norm_num
    rw [crystalCurves_fallback style 8 h1 h2]
    simp [allCurves, crystalCurves, crystalParams, crystalHarmonicCurve,
      curveMonotone, curveTimes, List.Chain']
    all_goals norm_num
  · intro style
    by_cases h1 : style = "mallet"
    · subst h1
      simp [allCurves, tibetanCurves, tibetanParams, tibetanPartialCurve,
        curveMonotone, curveTimes, List.Chain']
      all_goals norm_num
    by_cases h2 : style = "singing"
    · subst h2
      simp [allCurves, tibetanCurves, tibetanParams, tibetanPartialCurve,
        curveMonotone, curveTimes, List.Chain']
      all_goals norm_num
    rw [tibetanCurves_fallback style 10 h1 h2]
    simp [allCurves, tibetanCurves, tibetanParams, tibetanPartialCurve,
      curveMonotone, curveTimes, List.Chain']
    all_goals norm_num
  · intro style b j
    by_cases h1 : style = "soft"
    · subst h1
      simp [allCurves, gongCurves, gongParams, gongPartialCurve,
        curveMonotone, curveTimes, List.Chain', List.forall_mem_map]
      all_goals norm_num
    by_cases h2 : style = "crescendo"
    · subst h2
      simp [allCurves, gongCurves, gongParams, gongPartialCurve,
        curveMonotone, curveTimes, List.Chain', List.forall_mem_map]
      all_goals norm_num
    rw [gongCurves_fallback style b 15 j h1 h2]
    simp [allCurves, gongCurves, gongParams, gongPartialCurve, gongChaosCurve,
      curveMonotone, curveTimes, List.Chain', List.forall_mem_map]
    refine ⟨by norm_num, by norm_num, ?_⟩
    rintro sc (⟨i, hi, rfl⟩ | ⟨i, hi, rfl⟩) <;> simp [List.chain_cons] <;> norm_num
  · intro style
    by_cases h1 : style = "sustained"
    · subst h1
      simp [allCurves, didgeCurves, didgeParams, curveMonotone, curveTimes,
        List.Chain']
      all_goals norm_num
    by_cases h2 : style = "rhythmic"
    · subst h2
      simp [allCurves, didgeCurves, didgeParams, curveMonotone, curveTimes,
        List.Chain']
      all_goals norm_num
    rw [didgeCurves_fallback style 8 h1 h2]
    simp [allCurves, didgeCurves, didgeParams, curveMonotone, curveTimes,
      List.Chain']
    all_goals norm_num
  · intro style f
    by_cases h1 : style = "sustained"
    · subst h1
      simp [allCurves, fluteCurves, fluteParams, curveMonotone, curveTimes,
        List.Chain']
      all_goals norm_num
    by_cases h2 : style = "rhythmic"
    · subst h2
      simp [allCurves, fluteCurves, fluteParams, curveMonotone, curveTimes,
        List.Chain']
      all_goals norm_num
    rw [fluteCurves_fallback style f 4 h1 h2]
    simp [allCurves, fluteCurves, fluteParams, curveMonotone, curveTimes,
      List.Chain']
    all_goals norm_num
  · intro style
    by_cases h1 : style = "finger"
    · subst h1
      simp [allCurves, handpanCurves, handpanParams, handpanPartialCurve,
        curveMonotone, curveTimes, List.Chain']
      all_goals norm_num
    by_cases h2 : style = "palm"
    · subst h2
      simp [allCurves, handpanCurves, handpanParams, handpanPartialCurve,
        curveMonotone, curveTimes, List.Chain']
      all_goals norm_num
    rw [handpanCurves_fallback style 5 h1 h2]
    simp [allCurves, handpanCurves, handpanParams, handpanPartialCurve,
      curveMonotone, curveTimes, List.Chain']
    all_goals norm_num

/-- C7 witness: the gong clause of `envelope_ramp_soundness` at base
frequency 50 ("crash", duration 15, zero jitter). -/
theorem envelope_ramp_soundness_witness :
    (0 : ℚ) < 50 ∧
    allCurves (gongCurves "crash" 50 15 rand0) expTargetsPositive :=
  ⟨by norm_num, envelope_ramp_soundness.2.2.1 "crash" 50 15 rand0 (by norm_num)⟩

/-- C4 counterexample: a play call with an unrecognized style is not a
no-op — `playCrystalBowl` with style "mystery" registers a voice (using
the fallback gentle parameters), and so does `playHandpan`. -/
theorem unknown_style_still_plays :
    (playCrystalBowl engine0 256 "mystery" 8).2.activeOscillators.length = 1 ∧
    crystalParams "mystery" 8 = crystalParams "gentle" 8 ∧
    (playHandpan engine0 220 "mystery" 5).2.activeOscillators.map
      (fun p => p.2.oscillators.length) = [3] :=
  ⟨by decide, rfl, by decide⟩

/-- C4 (amended): an unrecognized style does not crash, but instead of a
no-op the call falls through to the family's final else-branch ("gentle",
"water", "crash", "melodic", "ghost" respectively) and still registers
and plays a voice. -/
theorem unknown_style_plays_fallback :
    (∀ (style : String) (d : ℚ), style ≠ "strike" → style ≠ "rim" →
        crystalParams style d = crystalParams "gentle" d) ∧
    (∀ style : String, style ≠ "mallet" → style ≠ "singing" →
        tibetanParams style = tibetanParams "water") ∧
    (∀ style : String, style ≠ "soft" → style ≠ "crescendo" →
        gongParams style = gongParams "crash") ∧
    (∀ (style : String) (d : ℚ), style ≠ "sustained" → style ≠ "rhythmic" →
        fluteParams style d = fluteParams "melodic" d) ∧
    (∀ style : String, style ≠ "finger" → style ≠ "palm" →
        handpanParams style = handpanParams "ghost") ∧
    (∀ (eng : Engine) (f : ℚ) (style : String) (d : ℚ),
        (playCrystalBowl eng f style d).2.activeOscillators.length =
          (enforcePolyphony maxPolyphony eng.activeOscillators).length + 1) ∧
    (∀ (eng : Engine) (f : ℚ) (style : String) (d : ℚ),
        (playTibetanBowl eng f style d).2.activeOscillators.length =
          (enforcePolyphony maxPolyphony eng.activeOscillators).length + 1) ∧
    (∀ (eng : Engine) (f : ℚ) (style : String) (d : ℚ),
        (playGong eng f style d).2.activeOscillators.length =
          (enforcePolyphony maxPolyphony eng.activeOscillators).length + 1) ∧
    (∀ (eng : Engine) (f : ℚ) (style : String) (d : ℚ),
        (playPanFlute eng f style d).2.activeOscillators.length =
          (enforcePolyphony maxPolyphony eng.activeOscillators).length + 1) ∧
    (∀ (eng : Engine) (f : ℚ) (style : String) (d : ℚ),
        (playHandpan eng f style d).2.activeOscillators.length =
          (enforcePolyphony maxPolyphony eng.activeOscillators).length + 1) := by
  refine ⟨fun s d => crystalParams_fallback s d, fun s => tibetanParams_fallback s,
    fun s => gongParams_fallback s, fun s d => fluteParams_fallback s d,
    fun s => handpanParams_fallback s, ?_, ?_, ?_, ?_, ?_⟩ <;>
  · intro eng f style d
    simp [playCrystalBowl, playTibetanBowl, playGong, playPanFlute, playHandpan,
      registerVoice]

/-- C4 witness: `unknown_style_plays_fallback` at the unrecognized style
"bogus". -/
theorem unknown_style_plays_fallback_witness :
    ("bogus" ≠ "strike") ∧ ("bogus" ≠ "rim") ∧
    crystalParams "bogus" 8 = crystalParams "gentle" 8 :=
  ⟨by decide, by decide,
   unknown_style_plays_fallback.1 "bogus" 8 (by decide) (by decide)⟩

/-- C5 counterexample: on an uninitialized engine (no audio context),
`toggleAmbient` returns `true` although the ambient bed does not start
(`startAmbient` bails out, the flag stays false, no source exists). -/
theorem toggle_ambient_uninitialized_returns_true :
    (toggleAmbient initEngine).1 = true ∧
    (toggleAmbient initEngine).2.isAmbientPlaying = false ∧
    (toggleAmbient initEngine).2.ambientSource = none := by
  decide

/-- C5 (amended): provided the engine has an audio context, no ambient
teardown is pending, and a playing bed owns its gain node,
`toggleAmbient` returns the resulting state: `true` exactly when the bed
is playing or fading in right after the call, and equal to the playing
flag once the scheduled fade-out teardown settles.  On an uninitialized
engine it returns `true` although the bed cannot start. -/
theorem toggleAmbient_reports_resulting_state (eng : Engine)
    (hctx : eng.audioContext ≠ none)
    (hpend : eng.pendingAmbientStop = false)
    (hgain : eng.isAmbientPlaying = true → eng.ambientGain ≠ none) :
    ((toggleAmbient eng).1 = true ↔ ambientActive (toggleAmbient eng).2) ∧
    (toggleAmbient eng).1 =
      (ambientStopTimeout (toggleAmbient eng).2).isAmbientPlaying := by
  by_cases hp : eng.isAmbientPlaying = true
  · have hg := hgain hp
    simp [toggleAmbient, stopAmbient, ambientStopTimeout, ambientActive, hp, hg]
  · simp [toggleAmbient, startAmbient, ambientStopTimeout, ambientActive,
      hp, hctx, hpend]

/-- C5 witness: `toggleAmbient_reports_resulting_state` on the freshly
initialized engine. -/
theorem toggleAmbient_reports_resulting_state_witness :
    (engine0.audioContext ≠ none) ∧ (engine0.pendingAmbientStop = false) ∧
    (((toggleAmbient engine0).1 = true ↔ ambientActive (toggleAmbient engine0).2) ∧
      (toggleAmbient engine0).1 =
        (ambientStopTimeout (toggleAmbient engine0).2).isAmbientPlaying) :=
  ⟨by decide, by decide,
   toggleAmbient_reports_resulting_state engine0 (by decide) (by decide)
     (by decide)⟩

/-- C6: `stopAll` never raises an error — each voice's oscillators are
stopped under a try/catch that swallows the `InvalidStateError` an
already-stopped generator throws (as `forEachStop` on a stopped node
shows) — and the live-voice count right after `stopAll` is zero. -/
theorem stopAll_safe_and_clears (eng : Engine) :
    (∃ eng', stopAllE eng = Except.ok eng' ∧ eng'.activeOscillators.length = 0) ∧
    (forEachStop [true]).2 = some "InvalidStateError" :=
  ⟨⟨_, rfl, rfl⟩, rfl⟩

/-- C8: voice removal (`activeOscillators.delete(id)`, used by both the
natural-completion cleanup and forced eviction) is idempotent on a
unique-key live set: deleting twice equals deleting once, the count
drops by exactly one when the id is present, and deleting an absent id
is a no-op (and never an error). -/
theorem voice_removal_idempotent (l : List (String × VoiceData)) (id : String)
    (h : (l.map Prod.fst).Nodup) :
    mapDelete id (mapDelete id l) = mapDelete id l ∧
    (id ∈ l.map Prod.fst → (mapDelete id l).length + 1 = l.length) ∧
    (id ∉ l.map Prod.fst → mapDelete id l = l) := by
  induction l with
  | nil => simp [mapDelete]
  | cons p rest ih =>
    obtain ⟨k, v⟩ := p
    simp only [List.map_cons, List.nodup_cons] at h
    obtain ⟨hk, hrest⟩ := h
    obtain ⟨ih1, ih2, ih3⟩ := ih hrest
    by_cases hkid : k = id
    · subst hkid
      have hdel : mapDelete k ((k, v) :: rest) = rest := by simp [mapDelete]
      refine ⟨?_, fun _ => ?_, fun hmem => ?_⟩
      · rw [hdel, ih3 hk]
      · rw [hdel, List.length_cons]
      · exact absurd (by simp) hmem
    · have hdel : mapDelete id ((k, v) :: rest) = (k, v) :: mapDelete id rest := by
        simp [mapDelete, hkid]
      have hdel2 : mapDelete id ((k, v) :: mapDelete id rest)
          = (k, v) :: mapDelete id (mapDelete id rest) := by
        simp [mapDelete, hkid]
      refine ⟨?_, fun hmem => ?_, fun hmem => ?_⟩
      · rw [hdel, hdel2, ih1]
      · have hmem' : id ∈ rest.map Prod.fst := by
          rcases List.mem_cons.1 hmem with h' | h'
          · exact absurd h'.symm hkid
          · exact h'
        rw [hdel, List.length_cons, List.length_cons, ← ih2 hmem']
      · have hmem' : id ∉ rest.map Prod.fst := fun hx => hmem (by simp [hx])
        rw [hdel, ih3 hmem']

/-- C8 witness: `voice_removal_idempotent` on a one-voice live set. -/
theorem voice_removal_idempotent_witness :
    (([("crystal_1", (⟨[false]⟩ : VoiceData))].map Prod.fst).Nodup) ∧
    mapDelete "crystal_1" (mapDelete "crystal_1" [("crystal_1", ⟨[false]⟩)]) =
      mapDelete "crystal_1" [("crystal_1", ⟨[false]⟩)] :=
  ⟨by decide,
   (voice_removal_idempotent [("crystal_1", ⟨[false]⟩)] "crystal_1" (by decide)).1⟩

/-- C9: the analyser read returns null when no analyser exists (the
engine was never initialized); after a successful init — fftSize 256,
hence 128 frequency bins — it returns exactly 128 magnitude bytes, each
in 0–255, and it is a pure read of the engine state. -/
theorem analyser_read (eng : Engine) (spectrum : Nat → Nat) :
    (eng.analyserFftSize = none → getAnalyserData eng spectrum = none) ∧
    getAnalyserData initEngine spectrum = none ∧
    (eng.isInitialized = false →
      (initializeEngine eng true).1 = true ∧
      getAnalyserData (initializeEngine eng true).2 spectrum
        = some ((List.range 128).map (fun i => spectrum i % 256)) ∧
      ((List.range 128).map (fun i => spectrum i % 256)).length = 128 ∧
      ∀ x ∈ (List.range 128).map (fun i => spectrum i % 256), x < 256) := by
  refine ⟨?_, rfl, ?_⟩
  · intro h
    simp [getAnalyserData, h]
  · intro h
    refine ⟨by simp [initializeEngine, h], ?_, by simp, ?_⟩
    · simp [initializeEngine, h, getAnalyserData]
    · intro x hx
      simp only [List.mem_map] at hx
      obtain ⟨i, _, rfl⟩ := hx
      exact Nat.mod_lt _ (by norm_num)

/-- C9 witness: `analyser_read` on the fresh engine with a constant
spectrum. -/
theorem analyser_read_witness :
    (initEngine.analyserFftSize = none ∧
      getAnalyserData initEngine constSpectrum = none) ∧
    initEngine.isInitialized = false ∧
    (initializeEngine initEngine true).1 = true ∧
    getAnalyserData (initializeEngine initEngine true).2 constSpectrum
      = some ((List.range 128).map (fun i => constSpectrum i % 256)) :=
  ⟨⟨rfl, (analyser_read initEngine constSpectrum).1 rfl⟩, rfl,
   ((analyser_read initEngine constSpectrum).2.2 rfl).1,
   ((analyser_read initEngine constSpectrum).2.2 rfl).2.1⟩

/-- C10: `stopAll` affects only the live-voice set — the resulting
engine is exactly the input with `activeOscillators` emptied, so the
ambient playing flag, the ambient source and the ambient gain node are
the same after the call as before. -/
theorem stopAll_preserves_ambient (eng : Engine) :
    stopAllE eng = Except.ok { eng with activeOscillators := [] } ∧
    (stopAllE eng).toOption.map Engine.isAmbientPlaying
      = some eng.isAmbientPlaying ∧
    (stopAllE eng).toOption.map Engine.ambientSource = some eng.ambientSource ∧
    (stopAllE eng).toOption.map Engine.ambientGain = some eng.ambientGain :=
  ⟨rfl, rfl, rfl, rfl⟩

end SoundBath
